import Mathlib

/-!
Shallow embedding of the hotel-ratings backend (`src/server.js`).

Timestamps are JavaScript epoch milliseconds, modelled as `Int`.
An absent / `undefined` string field of a request body is modelled
as the empty string `""` (the code treats `undefined` and `""`
identically: both are falsy and both trim to `""`).  Absent arrays
are modelled as `[]` (the code defaults them with `|| []` and the
schema default is `[]`).  Percentages, which the code computes as
`Math.round(x * 10) / 10`, are modelled exactly as integer tenths
of a percent (`pctTenths`), with JavaScript `Math.round` on a
non-negative rational `p/q` being `⌊p/q + 1/2⌋`.
-/

/-- JavaScript `String.prototype.trim`: drop whitespace from both ends,
realised executably on the string's character list. -/
def jsTrim (s : String) : String :=
  String.mk ((s.data.dropWhile Char.isWhitespace).reverse.dropWhile Char.isWhitespace).reverse

/-- `s.trim() !== ''` combined with JS truthiness of `s`: a string field
counts as a present value iff its trimmed form is non-empty
(`r[category] && r[category].trim() !== ''` in the source). -/
def hasVal (s : String) : Bool := jsTrim s != ""

/-- One week in milliseconds: `7 * 24 * 60 * 60 * 1000` (server.js line 81). -/
def weekMs : Int := 7 * 24 * 60 * 60 * 1000

/-- A stored `Rating` document (schema at server.js lines 40-56). -/
structure Rating where
  hotelKey : String
  hotelName : String
  hotelAddress : String
  bedSize : String
  bedComfort : String
  bedcoverSize : String
  bedcoverComfort : String
  pillowSize : String
  pillowComfort : String
  lightAnnoyances : List String
  noise : List String
  fingerprint : String
  ipAddress : String
  submissionTime : Int
deriving DecidableEq, Repr

/-- A stored `RateLimit` document (schema at server.js lines 61-66); the
`type` discriminator is modelled by keeping the two kinds in separate
lists inside `RateLimitState`. -/
structure RLEntry where
  identifier : String
  lastSubmission : Int
  count : Nat
deriving DecidableEq, Repr

/-- The rate-limit collection, split by the `type` field
(`ip_hotel` vs `fingerprint_hotel`). -/
structure RateLimitState where
  ipHotel : List RLEntry
  fpHotel : List RLEntry
deriving DecidableEq, Repr

/-- Result of `checkRateLimit`. -/
inductive RLResult where
  | allowed
  | denied (reason : String)
deriving DecidableEq, Repr

def ipRateReason : String := "IP rate limit: Only 1 rating per week per IP address per hotel"

def fpRateReason : String := "Fingerprint rate limit: Only 1 rating per week per browser per hotel"

/-- `RateLimit.findOne({identifier, type, lastSubmission: {$gte: oneWeekAgo}})`:
first entry with the given identifier whose `lastSubmission ≥ oneWeekAgo`. -/
def findRecent (entries : List RLEntry) (id : String) (oneWeekAgo : Int) : Option RLEntry :=
  entries.find? (fun e => e.identifier == id && decide (oneWeekAgo ≤ e.lastSubmission))

/-- `checkRateLimit(fingerprint, hotelKey, ipAddress)` (server.js lines 80-108),
with `now` passed explicitly in place of `Date.now()`. -/
def checkRateLimit (st : RateLimitState) (fingerprint hotelKey ipAddress : String)
    (now : Int) : RLResult :=
  let oneWeekAgo := now - weekMs
  let ipHotelId := ipAddress ++ "|" ++ hotelKey
  match findRecent st.ipHotel ipHotelId oneWeekAgo with
  | some _ => .denied ipRateReason
  | none =>
    let fingerprintHotelId := fingerprint ++ "|" ++ hotelKey
    match findRecent st.fpHotel fingerprintHotelId oneWeekAgo with
    | some _ => .denied fpRateReason
    | none => .allowed

/-- `RateLimit.findOneAndUpdate({identifier, type}, {lastSubmission: now, count: 1},
{upsert: true})`: update the first entry with this identifier, or append a
fresh one (`identifier` is unique in the schema). -/
def upsert : List RLEntry → String → Int → List RLEntry
  | [], id, now => [⟨id, now, 1⟩]
  | e :: rest, id, now =>
    if e.identifier == id then { e with lastSubmission := now, count := 1 } :: rest
    else e :: upsert rest id now

/-- `updateRateLimit(fingerprint, hotelKey, ipAddress)` (server.js lines 111-129). -/
def updateRateLimit (st : RateLimitState) (fingerprint hotelKey ipAddress : String)
    (now : Int) : RateLimitState :=
  ⟨upsert st.ipHotel (ipAddress ++ "|" ++ hotelKey) now,
   upsert st.fpHotel (fingerprint ++ "|" ++ hotelKey) now⟩

/-- The JSON body of `POST /ratings` (absent fields as `""` / `[]`). -/
structure RatingDraft where
  hotelKey : String
  hotelName : String
  hotelAddress : String
  bedSize : String
  bedComfort : String
  bedcoverSize : String
  bedcoverComfort : String
  pillowSize : String
  pillowComfort : String
  lightAnnoyances : List String
  noise : List String
  fingerprint : String
deriving DecidableEq, Repr

/-- `validAnnoyances` (server.js line 300). -/
def validAnnoyances : List String :=
  ["ac-panel", "telephone", "tv-dot", "corridor-light", "curtain-window", "smoke-alarm"]

/-- `validNoise` (server.js line 314). -/
def validNoiseIssues : List String :=
  ["street", "through-walls", "through-ceiling-floors", "corridor", "courtyard",
   "parking", "air-traffic"]

/-- The six single-valued bedding fields, as accessed by name in
`ratingFields` (server.js line 347). -/
def ratingFieldGetters : List (RatingDraft → String) :=
  [(·.bedSize), (·.bedComfort), (·.bedcoverSize), (·.bedcoverComfort),
   (·.pillowSize), (·.pillowComfort)]

/-- `hasAtLeastOneRating || hasLightAnnoyances || hasNoise`
(server.js lines 348-350). -/
def hasSignal (d : RatingDraft) : Bool :=
  ratingFieldGetters.any (fun get => hasVal (get d))
    || decide (d.lightAnnoyances.length > 0) || decide (d.noise.length > 0)

/-- The `new Rating({...})` document built at server.js lines 357-372. -/
def mkRating (d : RatingDraft) (ipAddress : String) (now : Int) : Rating :=
  { hotelKey := d.hotelKey
    hotelName := d.hotelName
    hotelAddress := d.hotelAddress
    bedSize := d.bedSize
    bedComfort := d.bedComfort
    bedcoverSize := d.bedcoverSize
    bedcoverComfort := d.bedcoverComfort
    pillowSize := d.pillowSize
    pillowComfort := d.pillowComfort
    lightAnnoyances := d.lightAnnoyances
    noise := d.noise
    fingerprint := d.fingerprint
    ipAddress := ipAddress
    submissionTime := now }

/-- Terminal outcome of a `POST /ratings` request. -/
inductive PostResult where
  | missingHotelKey
  | missingFingerprint
  | invalidLight (invalidValues validValues : List String)
  | invalidNoise (invalidValues validValues : List String)
  | rateLimited (reason : String)
  | emptySubmission
  | saveError
  | created (rating : Rating)
deriving DecidableEq, Repr

def PostResult.isCreated : PostResult → Bool
  | .created _ => true
  | _ => false

/-- Server-side persistent state: the `Rating` collection and the
`RateLimit` collection. -/
structure ServerState where
  ratings : List Rating
  rl : RateLimitState
deriving DecidableEq, Repr

/-- The `POST /ratings` handler (server.js lines 281-385), with `now` for
`Date.now()`/`new Date()`, `ip` for `getClientIP(req)`, and `saveOk`
standing for whether `rating.save()` succeeds.  The checks occur in
source order: hotelKey, fingerprint, light-annoyance vocabulary, noise
vocabulary, rate limit, at-least-one-signal, save, rate-limit update. -/
def postRatings (st : ServerState) (d : RatingDraft) (ip : String) (now : Int)
    (saveOk : Bool) : PostResult × ServerState :=
  if d.hotelKey == "" then (.missingHotelKey, st)
  else if d.fingerprint == "" then (.missingFingerprint, st)
  else
    let invalidAnnoyances := d.lightAnnoyances.filter (fun a => !(validAnnoyances.contains a))
    if invalidAnnoyances.length > 0 then (.invalidLight invalidAnnoyances validAnnoyances, st)
    else
      let invalidNoiseVals := d.noise.filter (fun n => !(validNoiseIssues.contains n))
      if invalidNoiseVals.length > 0 then (.invalidNoise invalidNoiseVals validNoiseIssues, st)
      else
        match checkRateLimit st.rl d.fingerprint d.hotelKey ip now with
        | .denied reason => (.rateLimited reason, st)
        | .allowed =>
          if !hasSignal d then (.emptySubmission, st)
          else if saveOk then
            let r := mkRating d ip now
            (.created r,
             ⟨st.ratings ++ [r], updateRateLimit st.rl d.fingerprint d.hotelKey ip now⟩)
          else (.saveError, st)

/-- JavaScript `Math.round` on the non-negative rational `num / den`,
i.e. round-half-up: `⌊num/den + 1/2⌋`. -/
def roundHalfUp (num den : Nat) : Nat := (2 * num + den) / (2 * den)

/-- One `{rating, count, percentage}` summary entry; `pctTenths` is the
percentage in tenths (so `600` renders as `60.0`). -/
structure TopEntry where
  rating : String
  count : Nat
  pctTenths : Nat
deriving DecidableEq, Repr

/-- The `counts` object built by `counts[value] = (counts[value] || 0) + 1`
followed by `Object.entries`: distinct values in order of first
occurrence, each with its occurrence count. -/
def countsInOrder (vs : List String) : List (String × Nat) :=
  vs.foldl
    (fun acc v =>
      if acc.any (fun p => p.1 == v) then
        acc.map (fun p => if p.1 == v then (p.1, p.2 + 1) else p)
      else acc ++ [(v, 1)])
    []

/-- Stable insertion into a list sorted by `count` descending: the new
element goes before the first element whose count is `≤` its own, so
elements with equal counts keep their original relative order. -/
def insertDesc (e : TopEntry) : List TopEntry → List TopEntry
  | [] => [e]
  | x :: xs => if e.count < x.count then x :: insertDesc e xs else e :: x :: xs

/-- JavaScript's stable `Array.prototype.sort` with comparator
`(a, b) => b.count - a.count`: the unique stable descending-by-count
ordering, realised here by stable insertion sort. -/
def sortByCountDesc (l : List TopEntry) : List TopEntry :=
  l.foldr insertDesc []

/-- Per-category summary value `{total, top2}`. -/
structure CatSummary where
  total : Nat
  top2 : List TopEntry
deriving DecidableEq, Repr

/-- Summary of one single-valued category (server.js lines 181-211):
filter to ratings with a present value, count occurrences per distinct
value, annotate with `Math.round(count / categoryRatings.length * 100
* 10) / 10`, sort by count descending, keep the first two. -/
def singleCatSummary (get : Rating → String) (ratings : List Rating) : CatSummary :=
  let categoryRatings := ratings.filter (fun r => hasVal (get r))
  if categoryRatings.length == 0 then ⟨0, []⟩
  else
    let counts := countsInOrder (categoryRatings.map get)
    let entries := counts.map
      (fun p => TopEntry.mk p.1 p.2 (roundHalfUp (p.2 * 1000) categoryRatings.length))
    ⟨categoryRatings.length, (sortByCountDesc entries).take 2⟩

/-- Summary of one multi-valued category (server.js lines 213-240 for
`lightAnnoyances`, 242-269 for `noise`): the filtered total is the
number of ratings contributing at least one value; each value's count
is its number of occurrences across those ratings; percentages divide
by the respondent total, not the occurrence total. -/
def multiCatSummary (get : Rating → List String) (ratings : List Rating) : CatSummary :=
  let respondents := ratings.filter (fun r => decide ((get r).length > 0))
  if respondents.length > 0 then
    let counts := countsInOrder (respondents.flatMap get)
    let entries := counts.map
      (fun p => TopEntry.mk p.1 p.2 (roundHalfUp (p.2 * 1000) respondents.length))
    ⟨respondents.length, (sortByCountDesc entries).take 2⟩
  else ⟨0, []⟩

/-- The full summary object built when `ratings.length > 0`
(server.js lines 174-269). -/
structure Summary where
  hotelKey : String
  totalRatings : Nat
  bedSize : CatSummary
  bedComfort : CatSummary
  bedcoverSize : CatSummary
  bedcoverComfort : CatSummary
  pillowSize : CatSummary
  pillowComfort : CatSummary
  lightAnnoyances : CatSummary
  noise : CatSummary
deriving DecidableEq, Repr

/-- The response of `GET /ratings/summary/:hotelKey`: either the early
zero-ratings reply `{hotelKey, totalRatings: 0, message}` (server.js
lines 166-172), which carries no per-category fields, or the full
summary. -/
inductive SummaryResult where
  | empty (hotelKey : String) (totalRatings : Nat) (message : String)
  | full (s : Summary)
deriving DecidableEq, Repr

def noRatingsMessage : String := "No ratings found for this hotel"

/-- Whether the response carries the per-category `{total, top2}` fields. -/
def SummaryResult.hasCategoryFields : SummaryResult → Bool
  | .full _ => true
  | .empty _ _ _ => false

/-- The `GET /ratings/summary/:hotelKey` handler (server.js lines 153-278)
applied to the full `Rating` collection `store`. -/
def summaryRoute (hotelKey : String) (store : List Rating) : SummaryResult :=
  let ratings := store.filter (fun r => r.hotelKey == hotelKey)
  if ratings.length == 0 then .empty hotelKey 0 noRatingsMessage
  else
    .full
      { hotelKey := hotelKey
        totalRatings := ratings.length
        bedSize := singleCatSummary (·.bedSize) ratings
        bedComfort := singleCatSummary (·.bedComfort) ratings
        bedcoverSize := singleCatSummary (·.bedcoverSize) ratings
        bedcoverComfort := singleCatSummary (·.bedcoverComfort) ratings
        pillowSize := singleCatSummary (·.pillowSize) ratings
        pillowComfort := singleCatSummary (·.pillowComfort) ratings
        lightAnnoyances := multiCatSummary (·.lightAnnoyances) ratings
        noise := multiCatSummary (·.noise) ratings }

/-- Number of ratings contributing at least one light-annoyance value
(the "respondent count" for the `lightAnnoyances` category). -/
def lightRespondentCount (ratings : List Rating) : Nat :=
  (ratings.filter (fun r => decide (r.lightAnnoyances.length > 0))).length

/-- Number of ratings contributing at least one noise value
(the "respondent count" for the `noise` category). -/
def noiseRespondentCount (ratings : List Rating) : Nat :=
  (ratings.filter (fun r => decide (r.noise.length > 0))).length

/-- Extract the full summary from a response, when present. -/
def summaryFull : SummaryResult → Option Summary
  | .full s => some s
  | .empty _ _ _ => none

/-- A stored rating for hotel `"h1"` carrying only a `bedComfort` value. -/
def mkBedComfortRating (bc : String) : Rating :=
  ⟨"h1", "", "", "", bc, "", "", "", "", [], [], "f", "i", 0⟩

/-- The rating set of §8 of the spec: `bedComfort` = "soft" ×6,
"hard" ×3, "medium" ×1, all for one hotel. -/
def c7Ratings : List Rating :=
  List.replicate 6 (mkBedComfortRating "soft")
    ++ List.replicate 3 (mkBedComfortRating "hard")
    ++ [mkBedComfortRating "medium"]

/-- A draft with hotelKey and fingerprint but zero signal fields. -/
def emptyDraft : RatingDraft := ⟨"hotel1", "", "", "", "", "", "", "", "", [], [], "fp1"⟩

/-- A server state with no ratings and no rate-limit entries. -/
def freshState : ServerState := ⟨[], ⟨[], []⟩⟩

/-- A server state whose ip-per-hotel key for `("1.2.3.4", "hotel1")` has a
window marker at time 0. -/
def throttledState : ServerState := ⟨[], ⟨[⟨"1.2.3.4|hotel1", 0, 1⟩], []⟩⟩

/-- A draft carrying one out-of-vocabulary light-annoyance value and one
out-of-vocabulary noise value. -/
def c5Draft : RatingDraft :=
  ⟨"h", "", "", "", "", "", "", "", "", ["bogus-light"], ["bogus-noise"], "f"⟩

/-- A stored rating for hotel `"h2"` mentioning two noise values. -/
def twoNoiseRating : Rating :=
  ⟨"h2", "", "", "", "", "", "", "", "", [], ["street", "corridor"], "f", "i", 0⟩

/-- Two ratings that each mention both noise values: 2 respondents but
4 value-occurrences. -/
def c8Ratings : List Rating := [twoNoiseRating, twoNoiseRating]

/-- A draft whose `bedSize` holds an arbitrary string from no vocabulary. -/
def c9Draft : RatingDraft :=
  ⟨"hotel9", "", "", "certainly-not-in-any-vocabulary!!", "", "", "", "", "", [], [], "fp9"⟩

theorem mem_insertDesc (e x : TopEntry) (l : List TopEntry) :
    x ∈ insertDesc e l ↔ x = e ∨ x ∈ l := by
  induction l with
  | nil => simp [insertDesc]
  | cons a l ih =>
    simp only [insertDesc]
    split
    · simp only [List.mem_cons, ih]
      tauto
    · simp only [List.mem_cons]

theorem mem_sortByCountDesc (x : TopEntry) (l : List TopEntry) :
    x ∈ sortByCountDesc l ↔ x ∈ l := by
  induction l with
  | nil => simp [sortByCountDesc]
  | cons a l ih =>
    simp only [sortByCountDesc, List.foldr_cons] at *
    rw [mem_insertDesc]
    simp only [List.mem_cons, ih]

theorem multiCat_pct (get : Rating → List String) (rs : List Rating) (e : TopEntry)
    (he : e ∈ (multiCatSummary get rs).top2) :
    e.pctTenths =
      roundHalfUp (e.count * 1000)
        ((rs.filter (fun r => decide ((get r).length > 0))).length) := by
  simp only [multiCatSummary] at he
  split at he
  · have h1 : e ∈ sortByCountDesc
        ((countsInOrder ((rs.filter (fun r => decide ((get r).length > 0))).flatMap get)).map
          (fun p => TopEntry.mk p.1 p.2
            (roundHalfUp (p.2 * 1000) (rs.filter (fun r => decide ((get r).length > 0))).length))) :=
      List.mem_of_mem_take he
    rw [mem_sortByCountDesc] at h1
    obtain ⟨p, _, rfl⟩ := List.mem_map.mp h1
    rfl
  · simp at he

/-- `C7`: for `bedComfort` values "soft" ×6, "hard" ×3, "medium" ×1 on one
hotel, the summary's `bedComfort` entry is total 10, top2 = soft (count 6,
60.0 %) then hard (count 3, 30.0 %), each percentage being
`round(count / filteredTotal * 100)` to one decimal. -/
theorem C7_bedComfort_example :
    (summaryFull (summaryRoute "h1" c7Ratings)).map (·.bedComfort) =
      some ⟨10, [⟨"soft", 6, 600⟩, ⟨"hard", 3, 300⟩]⟩ ∧
    roundHalfUp (6 * 1000) 10 = 600 ∧ roundHalfUp (3 * 1000) 10 = 300 := by
  decide

/-- `C3` counterexample: for a hotel with zero stored ratings the summary
route answers with the early `{hotelKey, totalRatings: 0, message}` reply,
which carries no per-category `{total: 0, top2: []}` fields, contradicting
the claim that every static category appears in the response. -/
theorem C3_counterexample :
    summaryRoute "anyhotel" [] = .empty "anyhotel" 0 noRatingsMessage ∧
    (summaryRoute "anyhotel" []).hasCategoryFields = false := by
  decide

/-- `C3` amended: for every hotel with zero stored ratings, the summary
response is the early reply `{hotelKey, totalRatings: 0, message: "No
ratings found for this hotel"}`; the per-category fields are omitted
rather than emitted as `{total: 0, top2: []}`. -/
theorem C3_amended_zero_ratings (hk : String) (store : List Rating)
    (h : store.filter (fun r => r.hotelKey == hk) = []) :
    summaryRoute hk store = .empty hk 0 noRatingsMessage := by
  simp [summaryRoute, h]

/-- Witness for `C3_amended_zero_ratings` at a concrete store. -/
theorem C3_witness :
    ([twoNoiseRating] : List Rating).filter (fun r => r.hotelKey == "h1") = [] ∧
    summaryRoute "h1" [twoNoiseRating] = .empty "h1" 0 noRatingsMessage :=
  ⟨by decide, C3_amended_zero_ratings "h1" [twoNoiseRating] (by decide)⟩

/-- `C1` counterexample: a key whose window marker is at time 0, queried at
`now = weekMs` (exactly one full week later), is still denied, although
`now − windowStart < weekMs` is false; the code's `$gte` comparison keeps
the boundary instant inside the window. -/
theorem C1_counterexample :
    checkRateLimit ⟨[⟨"1.2.3.4|h", 0, 1⟩], []⟩ "f" "h" "1.2.3.4" weekMs =
      .denied ipRateReason ∧
    ¬(weekMs - 0 < weekMs) := by
  decide

/-- `C1` amended: with one stored entry per key, admission at time `now`
holds exactly when strictly more than one week has elapsed since each
key's window start (`now − windowStart > weekMs`); equivalently, a key is
denied exactly when `now − windowStart ≤ weekMs`, so the submission made
when exactly one full week has elapsed is still denied. -/
theorem C1_amended_window_closed (tip tfp now : Int) (fp hk ip : String) :
    checkRateLimit ⟨[⟨ip ++ "|" ++ hk, tip, 1⟩], [⟨fp ++ "|" ++ hk, tfp, 1⟩]⟩ fp hk ip now =
      .allowed ↔ weekMs < now - tip ∧ weekMs < now - tfp := by
  by_cases h1 : now - weekMs ≤ tip
  · simp [checkRateLimit, findRecent, List.find?, h1]
    omega
  · by_cases h2 : now - weekMs ≤ tfp
    · simp [checkRateLimit, findRecent, List.find?, h1, h2]
      omega
    · simp [checkRateLimit, findRecent, List.find?, h1, h2]
      omega

/-- `C4`: the rate limiter admits exactly when neither the
origin-per-hotel key nor the fingerprint-per-hotel key has an entry inside
the one-week window; if either key is within its window the check is
denied regardless of the other key's state. -/
theorem C4_both_keys_required (st : RateLimitState) (fp hk ip : String) (now : Int) :
    checkRateLimit st fp hk ip now = .allowed ↔
      findRecent st.ipHotel (ip ++ "|" ++ hk) (now - weekMs) = none ∧
      findRecent st.fpHotel (fp ++ "|" ++ hk) (now - weekMs) = none := by
  simp only [checkRateLimit]
  cases hip : findRecent st.ipHotel (ip ++ "|" ++ hk) (now - weekMs) with
  | some e => simp
  | none =>
    cases hfp : findRecent st.fpHotel (fp ++ "|" ++ hk) (now - weekMs) with
    | some e => simp
    | none => simp

/-- `C10`: the origin (IP-per-hotel) key is checked first: whenever it is
within its window the denial reason is the IP reason, whatever the
fingerprint key's state; and a denial carrying the fingerprint reason can
only arise when the origin key found no entry in its window. -/
theorem C10_origin_key_first (st : RateLimitState) (fp hk ip : String) (now : Int) :
    ((findRecent st.ipHotel (ip ++ "|" ++ hk) (now - weekMs)).isSome = true →
      checkRateLimit st fp hk ip now = .denied ipRateReason) ∧
    (checkRateLimit st fp hk ip now = .denied fpRateReason →
      findRecent st.ipHotel (ip ++ "|" ++ hk) (now - weekMs) = none) := by
  cases hip : findRecent st.ipHotel (ip ++ "|" ++ hk) (now - weekMs) with
  | some e =>
    constructor
    · intro _
      simp [checkRateLimit, hip]
    · intro h
      simp only [checkRateLimit, hip] at h
      exact absurd h (by decide)
  | none =>
    constructor
    · intro h
      simp at h
    · intro _
      rfl

/-- Witness for `C10_origin_key_first` with both keys inside the window. -/
theorem C10_witness :
    (findRecent [⟨"1.2.3.4|h", (0 : Int), 1⟩] ("1.2.3.4" ++ "|" ++ "h") ((0 : Int) - weekMs)).isSome
      = true ∧
    checkRateLimit ⟨[⟨"1.2.3.4|h", 0, 1⟩], [⟨"f|h", 0, 1⟩]⟩ "f" "h" "1.2.3.4" 0 =
      .denied ipRateReason :=
  ⟨by decide,
   (C10_origin_key_first ⟨[⟨"1.2.3.4|h", 0, 1⟩], [⟨"f|h", 0, 1⟩]⟩ "f" "h" "1.2.3.4" 0).1
     (by decide)⟩

theorem postRatings_cases (st : ServerState) (d : RatingDraft) (ip : String) (now : Int)
    (saveOk : Bool) :
    (saveOk = true ∧
      postRatings st d ip now saveOk =
        (.created (mkRating d ip now),
         ⟨st.ratings ++ [mkRating d ip now],
          updateRateLimit st.rl d.fingerprint d.hotelKey ip now⟩)) ∨
    ((postRatings st d ip now saveOk).1.isCreated = false ∧
      (postRatings st d ip now saveOk).2 = st) := by
  simp only [postRatings]
  split
  · exact Or.inr ⟨rfl, rfl⟩
  split
  · exact Or.inr ⟨rfl, rfl⟩
  split
  · exact Or.inr ⟨rfl, rfl⟩
  split
  · exact Or.inr ⟨rfl, rfl⟩
  split
  · exact Or.inr ⟨rfl, rfl⟩
  split
  · exact Or.inr ⟨rfl, rfl⟩
  split
  · next h => exact Or.inl ⟨h, rfl⟩
  · exact Or.inr ⟨rfl, rfl⟩

/-- `C6`: the rate-limit commit happens only after a successful save: a
failed persistence leaves the whole server state (ratings and rate-limit
entries) unchanged, every non-`created` outcome leaves it unchanged, and a
`created` outcome persists exactly the built rating and upserts both keys
with `windowStart = now`. -/
theorem C6_commit_only_after_success (st : ServerState) (d : RatingDraft) (ip : String)
    (now : Int) (saveOk : Bool) :
    ((postRatings st d ip now false).2 = st) ∧
    ((postRatings st d ip now saveOk).1.isCreated = false →
      (postRatings st d ip now saveOk).2 = st) ∧
    (∀ r st2, postRatings st d ip now saveOk = (.created r, st2) →
      r = mkRating d ip now ∧
      st2.ratings = st.ratings ++ [r] ∧
      st2.rl = updateRateLimit st.rl d.fingerprint d.hotelKey ip now) := by
  refine ⟨?_, ?_, ?_⟩
  · rcases postRatings_cases st d ip now false with ⟨h, _⟩ | ⟨_, h2⟩
    · exact absurd h (by decide)
    · exact h2
  · intro h
    rcases postRatings_cases st d ip now saveOk with ⟨_, heq⟩ | ⟨_, h2⟩
    · rw [heq] at h
      simp [PostResult.isCreated] at h
    · exact h2
  · intro r st2 heq
    rcases postRatings_cases st d ip now saveOk with ⟨_, heq2⟩ | ⟨hnc, _⟩
    · rw [heq] at heq2
      injection heq2 with h1 h2
      injection h1 with hr
      subst hr
      subst h2
      exact ⟨rfl, rfl, rfl⟩
    · rw [heq] at hnc
      simp [PostResult.isCreated] at hnc

/-- Witness for `C6_commit_only_after_success`: an empty submission is not
`created` and leaves the server state untouched. -/
theorem C6_witness :
    (postRatings freshState emptyDraft "1.2.3.4" 1000 true).1.isCreated = false ∧
    (postRatings freshState emptyDraft "1.2.3.4" 1000 true).2 = freshState :=
  ⟨by decide,
   (C6_commit_only_after_success freshState emptyDraft "1.2.3.4" 1000 true).2.1 (by decide)⟩

/-- `C2` counterexample: a zero-signal draft whose origin key is inside its
window is rejected as rate-limited, not as `EmptySubmission` — the rate
limiter is consulted before the emptiness check, contradicting the claim
that validation rejects first regardless of the limiter's state. -/
theorem C2_counterexample :
    postRatings throttledState emptyDraft "1.2.3.4" 1000 true =
      (.rateLimited ipRateReason, throttledState) ∧
    (postRatings throttledState emptyDraft "1.2.3.4" 1000 true).1 ≠ .emptySubmission := by
  decide

/-- `C2` amended: a draft with zero signal fields is rejected as
`EmptySubmission` whenever the rate limiter admits the pair of keys; the
rate limiter runs before the emptiness check (after hotelKey, fingerprint
and vocabulary checks), so a throttled empty draft is reported as
rate-limited instead.  No state is changed. -/
theorem C2_amended_empty_submission (st : ServerState) (d : RatingDraft) (ip : String)
    (now : Int) (saveOk : Bool)
    (hK : d.hotelKey ≠ "") (hF : d.fingerprint ≠ "")
    (h1 : jsTrim d.bedSize = "") (h2 : jsTrim d.bedComfort = "")
    (h3 : jsTrim d.bedcoverSize = "") (h4 : jsTrim d.bedcoverComfort = "")
    (h5 : jsTrim d.pillowSize = "") (h6 : jsTrim d.pillowComfort = "")
    (hL : d.lightAnnoyances = []) (hN : d.noise = [])
    (hRL : checkRateLimit st.rl d.fingerprint d.hotelKey ip now = .allowed) :
    postRatings st d ip now saveOk = (.emptySubmission, st) := by
  simp [postRatings, hK, hF, hL, hN, hRL, hasSignal, ratingFieldGetters, hasVal,
    h1, h2, h3, h4, h5, h6]

/-- Witness for `C2_amended_empty_submission` on a fresh state. -/
theorem C2_witness :
    postRatings freshState emptyDraft "1.2.3.4" 1000 true = (.emptySubmission, freshState) :=
  C2_amended_empty_submission freshState emptyDraft "1.2.3.4" 1000 true (by decide) (by decide)
    rfl rfl rfl rfl rfl rfl rfl rfl (by decide)

/-- `C5` counterexample: a draft carrying an out-of-vocabulary value in
each multi-valued category is rejected reporting only the light-annoyance
offenders; the offending noise value "bogus-noise" is not reported,
contradicting "the rejection reports every offending value". -/
theorem C5_counterexample :
    postRatings freshState c5Draft "9.9.9.9" 0 true =
      (.invalidLight ["bogus-light"] validAnnoyances, freshState) ∧
    "bogus-noise" ∈ c5Draft.noise.filter (fun n => !(validNoiseIssues.contains n)) ∧
    "bogus-noise" ∉ (["bogus-light"] : List String) := by
  decide

/-- `C5` amended: a draft with an out-of-vocabulary multi-valued value is
wholly rejected with no state change (no partial persistence), reporting
every offending value of the first failing category together with that
category's accepted vocabulary; light annoyances are checked before
noise, so noise offenders are reported only when all light values are
in-vocabulary. -/
theorem C5_amended_vocab_rejection (st : ServerState) (d : RatingDraft) (ip : String)
    (now : Int) (saveOk : Bool) (hK : d.hotelKey ≠ "") (hF : d.fingerprint ≠ "") :
    (d.lightAnnoyances.filter (fun a => !(validAnnoyances.contains a)) ≠ [] →
      postRatings st d ip now saveOk =
        (.invalidLight (d.lightAnnoyances.filter (fun a => !(validAnnoyances.contains a)))
          validAnnoyances, st)) ∧
    (d.lightAnnoyances.filter (fun a => !(validAnnoyances.contains a)) = [] →
      d.noise.filter (fun n => !(validNoiseIssues.contains n)) ≠ [] →
      postRatings st d ip now saveOk =
        (.invalidNoise (d.noise.filter (fun n => !(validNoiseIssues.contains n)))
          validNoiseIssues, st)) := by
  constructor
  · intro hinv
    have hlen : 0 < (d.lightAnnoyances.filter (fun a => !(validAnnoyances.contains a))).length :=
      List.length_pos.mpr hinv
    simp only [postRatings]
    rw [if_neg (by simpa using hK), if_neg (by simpa using hF), if_pos hlen]
  · intro hempty hinv
    have hlen : 0 < (d.noise.filter (fun n => !(validNoiseIssues.contains n))).length :=
      List.length_pos.mpr hinv
    simp only [postRatings]
    rw [if_neg (by simpa using hK), if_neg (by simpa using hF), hempty,
      if_neg (by simp), if_pos hlen]

/-- Witness for `C5_amended_vocab_rejection` on the two-offender draft. -/
theorem C5_witness :
    postRatings freshState c5Draft "8.8.8.8" 5 true =
      (.invalidLight ["bogus-light"] validAnnoyances, freshState) :=
  (C5_amended_vocab_rejection freshState c5Draft "8.8.8.8" 5 true (by decide) (by decide)).1
    (by decide)

/-- `C9`: single-valued bedding values are never vocabulary-checked: any
draft passing the structural gates (hotelKey, fingerprint, multi-valued
vocabularies, rate limit, at least one signal) is persisted whatever
strings its six single-valued fields hold, and the stored rating carries
those strings verbatim. -/
theorem C9_single_valued_unchecked (st : ServerState) (d : RatingDraft) (ip : String)
    (now : Int)
    (hK : d.hotelKey ≠ "") (hF : d.fingerprint ≠ "")
    (hL : d.lightAnnoyances.filter (fun a => !(validAnnoyances.contains a)) = [])
    (hN : d.noise.filter (fun n => !(validNoiseIssues.contains n)) = [])
    (hRL : checkRateLimit st.rl d.fingerprint d.hotelKey ip now = .allowed)
    (hSig : hasSignal d = true) :
    postRatings st d ip now true =
      (.created (mkRating d ip now),
       ⟨st.ratings ++ [mkRating d ip now],
        updateRateLimit st.rl d.fingerprint d.hotelKey ip now⟩) ∧
    (mkRating d ip now).bedSize = d.bedSize ∧
    (mkRating d ip now).bedComfort = d.bedComfort ∧
    (mkRating d ip now).bedcoverSize = d.bedcoverSize ∧
    (mkRating d ip now).bedcoverComfort = d.bedcoverComfort ∧
    (mkRating d ip now).pillowSize = d.pillowSize ∧
    (mkRating d ip now).pillowComfort = d.pillowComfort := by
  refine ⟨?_, rfl, rfl, rfl, rfl, rfl, rfl⟩
  simp only [postRatings]
  rw [if_neg (by simpa using hK), if_neg (by simpa using hF), hL, if_neg (by simp),
    hN, if_neg (by simp), hRL]
  simp [hSig]

/-- Witness for `C9_single_valued_unchecked` on a draft whose `bedSize` is
an arbitrary out-of-any-vocabulary string. -/
theorem C9_witness :
    hasSignal c9Draft = true ∧
    postRatings freshState c9Draft "7.7.7.7" 3 true =
      (.created (mkRating c9Draft "7.7.7.7" 3),
       ⟨freshState.ratings ++ [mkRating c9Draft "7.7.7.7" 3],
        updateRateLimit freshState.rl c9Draft.fingerprint c9Draft.hotelKey "7.7.7.7" 3⟩) :=
  ⟨by decide,
   (C9_single_valued_unchecked freshState c9Draft "7.7.7.7" 3 (by decide) (by decide)
     (by decide) (by decide) (by decide) (by decide)).1⟩

/-- `C8`: in both multi-valued categories every reported percentage uses
the respondent count (ratings contributing at least one value) as its
denominator, never the number of value-occurrences; on `c8Ratings` the two
percentages are each 100.0 and sum to 200.0 (2000 tenths > 1000), with
2 respondents against 4 occurrences — the overshoot is not normalized. -/
theorem C8_respondent_denominator (rs : List Rating) (e : TopEntry) :
    (e ∈ (multiCatSummary (·.lightAnnoyances) rs).top2 →
      e.pctTenths = roundHalfUp (e.count * 1000) (lightRespondentCount rs)) ∧
    (e ∈ (multiCatSummary (·.noise) rs).top2 →
      e.pctTenths = roundHalfUp (e.count * 1000) (noiseRespondentCount rs)) ∧
    ((multiCatSummary (·.noise) c8Ratings).top2.foldl (fun s t => s + t.pctTenths) 0 = 2000 ∧
     noiseRespondentCount c8Ratings = 2 ∧
     (c8Ratings.flatMap (·.noise)).length = 4) := by
  refine ⟨?_, ?_, by decide⟩
  · intro he
    have h := multiCat_pct (·.lightAnnoyances) rs e he
    simpa [lightRespondentCount] using h
  · intro he
    have h := multiCat_pct (·.noise) rs e he
    simpa [noiseRespondentCount] using h

/-- Witness for `C8_respondent_denominator` at a concrete summary entry. -/
theorem C8_witness :
    (⟨"street", 2, 1000⟩ : TopEntry) ∈ (multiCatSummary (·.noise) c8Ratings).top2 ∧
    (⟨"street", 2, 1000⟩ : TopEntry).pctTenths =
      roundHalfUp ((⟨"street", 2, 1000⟩ : TopEntry).count * 1000)
        (noiseRespondentCount c8Ratings) :=
  ⟨by decide, (C8_respondent_denominator c8Ratings ⟨"street", 2, 1000⟩).2.1 (by decide)⟩
